import Mathlib

/-!
Verification of the terminal-tax calculator (src/src/app.ts).

The TypeScript source is shallowly embedded: JavaScript numbers are
modelled as rationals (ℚ), `Math.round` as floor-based round-half-up,
thrown errors as `Except.error`, and the validation result union as
`ValidationOutcome`.  The interactive driver is modelled as a function
from the finite list of prompt answers to the produced result plus the
list of messages passed to the output collaborator's `log`.
-/

namespace TerminalTax

/-- A tax bracket, embedding the source record
`{ min, max, rate, base }`; `max = none` stands for
`Number.POSITIVE_INFINITY` (the field is never read by the tax
computation). -/
structure TaxBracket where
  min : ℚ
  max : Option ℚ
  rate : ℚ
  base : ℚ
deriving DecidableEq

/-- The `"2023-2024"` entry of `TAX_BRACKETS` in src/src/app.ts. -/
def brackets2324 : List TaxBracket :=
  [⟨0, some 18200, 0, 0⟩,
   ⟨18200, some 45000, 19/100, 0⟩,
   ⟨45000, some 120000, 325/1000, 5092⟩,
   ⟨120000, some 180000, 37/100, 29467⟩,
   ⟨180000, none, 45/100, 51667⟩]

/-- The `"2024-2025"` entry of `TAX_BRACKETS` in src/src/app.ts. -/
def brackets2425 : List TaxBracket :=
  [⟨0, some 18200, 0, 0⟩,
   ⟨18200, some 45000, 16/100, 0⟩,
   ⟨45000, some 135000, 3/10, 4288⟩,
   ⟨135000, some 190000, 37/100, 31388⟩,
   ⟨190000, none, 45/100, 51838⟩]

/-- The bracket table: the record `TAX_BRACKETS` keyed by fiscal-year
string, embedded as a partial map. -/
def TAX_BRACKETS (year : String) : Option (List TaxBracket) :=
  if year = "2023-2024" then some brackets2324
  else if year = "2024-2025" then some brackets2425
  else none

/-- `TaxService.getAvailableYears`: `Object.keys(TAX_BRACKETS)` in
insertion order. -/
def getAvailableYears : List String := ["2023-2024", "2024-2025"]

/-- `Array.prototype.findLast`: the last element of the list satisfying
the predicate, if any. -/
def findLast {α : Type} (p : α → Prop) [DecidablePred p] : List α → Option α
  | [] => none
  | a :: as =>
    match findLast p as with
    | some b => some b
    | none => if p a then some a else none

/-- `Math.round`: JavaScript rounds half toward positive infinity,
i.e. `Math.round x = ⌊x + 1/2⌋`. -/
def jsRound (x : ℚ) : ℤ := ⌊x + 1/2⌋

/-- `Math.round(tax * 100) / 100` from `calculateTax`: round to two
decimal places, half up on the cent. -/
def round2 (x : ℚ) : ℚ := ((jsRound (x * 100) : ℤ) : ℚ) / 100

/-- `TaxService.calculateTax`.  Looks up the year's brackets (throwing,
i.e. `Except.error`, when the year is not a key), finds the last
bracket whose `min` is strictly below the income, and returns the
rounded `base + (income - min) * rate`; with no matching bracket the
tax is 0. -/
def calculateTax (year : String) (income : ℚ) : Except String ℚ :=
  match TAX_BRACKETS year with
  | none => Except.error ("Invalid tax year: " ++ year)
  | some brackets =>
    match findLast (fun b => b.min < income) brackets with
    | none => Except.ok 0
    | some b => Except.ok (round2 (b.base + (income - b.min) * b.rate))

/-- The `TaxResult` record of src/src/app.ts. -/
structure TaxResult where
  year : String
  income : ℚ
  tax : ℚ
  afterTax : ℚ
  effectiveRate : ℚ
deriving DecidableEq

/-- `TaxService.calculateResult`: delegates to `calculateTax` and
derives `afterTax` and `effectiveRate`. -/
def calculateResult (year : String) (income : ℚ) : Except String TaxResult :=
  match calculateTax year income with
  | Except.error e => Except.error e
  | Except.ok tax =>
    Except.ok ⟨year, income, tax, income - tax, if income > 0 then tax / income * 100 else 0⟩

/-- The validation result union
`{ success: true; data: T } | { success: false; error: string }`. -/
inductive ValidationOutcome (α : Type) where
  | success (data : α)
  | failure (error : String)
deriving DecidableEq

/-- Leading and trailing whitespace removal on a character list,
backing both `String.prototype.trim` and the trimming `Number` performs
(ASCII whitespace fragment). -/
def trimChars (cs : List Char) : List Char :=
  ((cs.dropWhile Char.isWhitespace).reverse.dropWhile Char.isWhitespace).reverse

/-- `String.prototype.trim` (ASCII whitespace fragment). -/
def jsTrim (s : String) : String := String.mk (trimChars s.data)

/-- Value of a run of decimal digit characters. -/
def digitsVal (cs : List Char) : ℕ :=
  cs.foldl (fun a c => a * 10 + (c.toNat - 48)) 0

/-- A parsed decimal literal `m / 10^f * 10^e`: mantissa (all digits of
the integer and fraction parts, signed), fraction length, exponent. -/
structure DecimalLit where
  mantissa : ℤ
  fracLen : ℕ
  exp : ℤ
deriving DecidableEq

/-- The rational value of a parsed decimal literal. -/
def litValue (d : DecimalLit) : ℚ :=
  (d.mantissa : ℚ) / (10 : ℚ) ^ d.fracLen * (10 : ℚ) ^ d.exp

/-- A non-empty all-digit run, as an integer. -/
def parseAllDigits (cs : List Char) : Option ℤ :=
  if cs.isEmpty then none
  else if cs.all Char.isDigit then some (digitsVal cs : ℤ) else none

/-- An optionally signed non-empty digit run (exponent body). -/
def parseSignedNat : List Char → Option ℤ
  | '+' :: t => parseAllDigits t
  | '-' :: t => (parseAllDigits t).map Neg.neg
  | t => parseAllDigits t

/-- The optional exponent part of a decimal literal. -/
def parseExpPart : List Char → Option ℤ
  | [] => some 0
  | 'e' :: t => parseSignedNat t
  | 'E' :: t => parseSignedNat t
  | _ => none

/-- An unsigned decimal literal: digits, an optional point with more
digits (at least one digit in total), and an optional exponent. -/
def parseUnsignedLit (cs : List Char) : Option DecimalLit :=
  let intDs := cs.takeWhile Char.isDigit
  let r1 := cs.dropWhile Char.isDigit
  let fracDs :=
    match r1 with
    | '.' :: t => t.takeWhile Char.isDigit
    | _ => []
  let r2 :=
    match r1 with
    | '.' :: t => t.dropWhile Char.isDigit
    | _ => r1
  if intDs.isEmpty ∧ fracDs.isEmpty then none
  else
    match parseExpPart r2 with
    | none => none
    | some e => some ⟨(digitsVal (intDs ++ fracDs) : ℤ), fracDs.length, e⟩

/-- A decimal literal with an optional sign; an all-whitespace input
parses to 0, as `Number('')` does. -/
def parseNumLit : List Char → Option DecimalLit
  | [] => some ⟨0, 0, 0⟩
  | '+' :: t => parseUnsignedLit t
  | '-' :: t => (parseUnsignedLit t).map (fun d => ⟨-d.mantissa, d.fracLen, d.exp⟩)
  | cs => parseUnsignedLit cs

/-- The JavaScript `Number(input)` conversion on the decimal-literal
fragment relevant here: surrounding whitespace is ignored, then an
optionally signed decimal numeral with optional fraction and exponent
is read; `none` stands for `NaN`.  (Hex, octal, binary and `Infinity`
forms of the ECMAScript grammar are outside this model.) -/
def jsNumber (s : String) : Option ℚ :=
  (parseNumLit (trimChars s.data)).map litValue

/-- The income cap `999_999_999.99` from `validateIncome`. -/
def maxIncome : ℚ := 99999999999 / 100

/-- `TaxService.validateIncome`. -/
def validateIncome (input : String) : ValidationOutcome ℚ :=
  if jsTrim input = "" then ValidationOutcome.failure "Income cannot be empty"
  else
    match jsNumber input with
    | none => ValidationOutcome.failure "Please enter a valid numeric income"
    | some income =>
      if income < 0 then ValidationOutcome.failure "Income cannot be negative"
      else if income > maxIncome then ValidationOutcome.failure "Income exceeds maximum allowed value"
      else ValidationOutcome.success income

/-- The regular expression test `/^\d{4}-\d{4}$/.test(input)`: exactly
four digits, a hyphen, four digits. -/
def isYearFormat (s : String) : Bool :=
  match s.data with
  | [c1, c2, c3, c4, c5, c6, c7, c8, c9] =>
    c1.isDigit && c2.isDigit && c3.isDigit && c4.isDigit && c5 = '-' &&
      c6.isDigit && c7.isDigit && c8.isDigit && c9.isDigit
  | _ => false

/-- `TaxService.validateYear`. -/
def validateYear (input : String) : ValidationOutcome String :=
  if jsTrim input = "" then ValidationOutcome.failure "Year cannot be empty"
  else if isYearFormat input = false then
    ValidationOutcome.failure "Year must be in format YYYY-YYYY (e.g., 2023-2024)"
  else if input ∉ getAvailableYears then
    ValidationOutcome.failure
      ("Year \"" ++ input ++ "\" not available. Choose from: " ++
        String.intercalate ", " getAvailableYears)
  else ValidationOutcome.success input

/-- The retry loop shared by `TaxCalculator.getValidYear` and
`TaxCalculator.getValidIncome`: ask the input collaborator for the next
answer, validate, log the error and retry on failure, return on
success.  The input collaborator is modelled as the list of successive
prompt answers; the result is the validated value, the unconsumed
answers, and the messages logged, or `none` when the answers run out
(the source loop would then wait forever). -/
def promptLoop {α : Type} (validate : String → ValidationOutcome α) :
    List String → Option (α × List String × List String)
  | [] => none
  | i :: rest =>
    match validate i with
    | ValidationOutcome.success v => some (v, rest, [])
    | ValidationOutcome.failure e =>
      match promptLoop validate rest with
      | none => none
      | some (v, rem, logs) => some (v, rem, e :: logs)

/-- `TaxCalculator.getValidYear`. -/
def getValidYear (inputs : List String) : Option (String × List String × List String) :=
  promptLoop validateYear inputs

/-- `TaxCalculator.getValidIncome`. -/
def getValidIncome (inputs : List String) : Option (ℚ × List String × List String) :=
  promptLoop validateIncome inputs

/-- `TaxCalculator.run`: a valid year, then a valid income, then the
result record.  Returns the result together with every message logged
through the output collaborator (`showResult` is display-only and is
not modelled). -/
def run (inputs : List String) : Option (TaxResult × List String) :=
  match getValidYear inputs with
  | none => none
  | some (year, rest, logs1) =>
    match getValidIncome rest with
    | none => none
    | some (income, _, logs2) =>
      match calculateResult year income with
      | Except.error _ => none
      | Except.ok r => some (r, logs1 ++ logs2)

/-- The result record for year 2023-2024 and income 50,000. -/
def resultAt50000 : TaxResult := ⟨"2023-2024", 50000, 6717, 43283, 6717/500⟩

/-- Closed form of the unrounded 2023-2024 tax: the bracket scan as a
chain of strict lower-bound tests from the top bracket down. -/
def raw2324 (x : ℚ) : ℚ :=
  if 180000 < x then 51667 + (x - 180000) * (45/100)
  else if 120000 < x then 29467 + (x - 120000) * (37/100)
  else if 45000 < x then 5092 + (x - 45000) * (325/1000)
  else if 18200 < x then 0 + (x - 18200) * (19/100)
  else if 0 < x then 0 + (x - 0) * 0
  else 0

/-- Closed form of the unrounded 2024-2025 tax. -/
def raw2425 (x : ℚ) : ℚ :=
  if 190000 < x then 51838 + (x - 190000) * (45/100)
  else if 135000 < x then 31388 + (x - 135000) * (37/100)
  else if 45000 < x then 4288 + (x - 45000) * (3/10)
  else if 18200 < x then 0 + (x - 18200) * (16/100)
  else if 0 < x then 0 + (x - 0) * 0
  else 0

/-! ## Helper lemmas -/

theorem findLast_nil {α : Type} (p : α → Prop) [DecidablePred p] :
    findLast p [] = none := rfl

theorem findLast_cons {α : Type} (p : α → Prop) [DecidablePred p] (a : α) (as : List α) :
    findLast p (a :: as) =
      match findLast p as with
      | some b => some b
      | none => if p a then some a else none := rfl

theorem tb2324 : TAX_BRACKETS "2023-2024" = some brackets2324 := rfl

theorem tb2425 : TAX_BRACKETS "2024-2025" = some brackets2425 := rfl

theorem TAX_BRACKETS_eq_none {y : String} (hy : y ∉ getAvailableYears) :
    TAX_BRACKETS y = none := by
  have h1 : y ≠ "2023-2024" := by
    intro h
    exact hy (by rw [h]; simp [getAvailableYears])
  have h2 : y ≠ "2024-2025" := by
    intro h
    exact hy (by rw [h]; simp [getAvailableYears])
  rw [TAX_BRACKETS, if_neg h1, if_neg h2]

theorem mem_getAvailableYears {y : String} (hy : y ∈ getAvailableYears) :
    y = "2023-2024" ∨ y = "2024-2025" := by
  simpa [getAvailableYears] using hy

theorem calculateTax_2324_eq (x : ℚ) :
    calculateTax "2023-2024" x = Except.ok (round2 (raw2324 x)) := by
  rw [calculateTax, tb2324]
  simp only [brackets2324, findLast_cons, findLast_nil, raw2324]
  by_cases h5 : (180000:ℚ) < x <;> by_cases h4 : (120000:ℚ) < x <;>
    by_cases h3 : (45000:ℚ) < x <;> by_cases h2 : (18200:ℚ) < x <;>
    by_cases h1 : (0:ℚ) < x <;>
    simp [h1, h2, h3, h4, h5, round2, jsRound] <;> norm_num

theorem calculateTax_2425_eq (x : ℚ) :
    calculateTax "2024-2025" x = Except.ok (round2 (raw2425 x)) := by
  rw [calculateTax, tb2425]
  simp only [brackets2425, findLast_cons, findLast_nil, raw2425]
  by_cases h5 : (190000:ℚ) < x <;> by_cases h4 : (135000:ℚ) < x <;>
    by_cases h3 : (45000:ℚ) < x <;> by_cases h2 : (18200:ℚ) < x <;>
    by_cases h1 : (0:ℚ) < x <;>
    simp [h1, h2, h3, h4, h5, round2, jsRound] <;> norm_num

theorem round2_mono {x y : ℚ} (h : x ≤ y) : round2 x ≤ round2 y := by
  rw [round2, round2, jsRound, jsRound]
  have hf : (⌊x * 100 + 1/2⌋ : ℤ) ≤ ⌊y * 100 + 1/2⌋ :=
    Int.floor_le_floor (by linarith)
  have hq : ((⌊x * 100 + 1/2⌋ : ℤ) : ℚ) ≤ ((⌊y * 100 + 1/2⌋ : ℤ) : ℚ) := by
    exact_mod_cast hf
  linarith

theorem raw2324_mono {a b : ℚ} (h : a ≤ b) : raw2324 a ≤ raw2324 b := by
  rw [raw2324, raw2324]
  split_ifs <;> nlinarith

theorem raw2425_mono {a b : ℚ} (h : a ≤ b) : raw2425 a ≤ raw2425 b := by
  rw [raw2425, raw2425]
  split_ifs <;> nlinarith

theorem round2_zero : round2 0 = 0 := by
  norm_num [round2, jsRound]

theorem findLast_eq_none_of {α : Type} {p : α → Prop} [DecidablePred p] :
    ∀ {l : List α}, (∀ a ∈ l, ¬ p a) → findLast p l = none
  | [], _ => rfl
  | a :: as, h => by
    rw [findLast_cons, findLast_eq_none_of (fun b hb => h b (List.mem_cons_of_mem a hb))]
    simp [h a (List.mem_cons_self a as)]

theorem findLast_eq_of_last {α : Type} {p : α → Prop} [DecidablePred p] :
    ∀ (l : List α) (i : ℕ) (hi : i < l.length), p (l.get ⟨i, hi⟩) →
      (∀ j (hj : j < l.length), i < j → ¬ p (l.get ⟨j, hj⟩)) →
      findLast p l = some (l.get ⟨i, hi⟩)
  | [], i, hi, _, _ => absurd hi (by simp)
  | a :: as, 0, hi, hp, hafter => by
    have hnone : findLast p as = none := by
      apply findLast_eq_none_of
      intro b hb
      obtain ⟨⟨j, hj⟩, rfl⟩ := List.mem_iff_get.mp hb
      have := hafter (j + 1) (by simpa using hj) (Nat.succ_pos j)
      simpa using this
    have hpa : p a := hp
    rw [findLast_cons, hnone]
    show (if p a then some a else none) = some a
    rw [if_pos hpa]
  | a :: as, i + 1, hi, hp, hafter => by
    have hi2 : i < as.length := by simpa using hi
    have heq : findLast p as = some (as.get ⟨i, hi2⟩) := by
      apply findLast_eq_of_last as i hi2 (by simpa using hp)
      intro j hj hij
      have := hafter (j + 1) (by simpa using hj) (by omega)
      simpa using this
    rw [findLast_cons, heq]
    rfl

/-! ## Claims -/

/-- C1 (code_bug): the spec's base-accumulation invariant
`base[i] = base[i-1] + (min[i] - min[i-1]) * rate[i-1]` holds for every
bracket of the 2023-2024 table but fails in the 2024-2025 table at
indices 3 and 4, so the unrounded tax jumps by an extra 100 when the
income crosses 135,000: tax at 135,000 is 31,288 while just above the
boundary it starts from base 31,388. -/
theorem brackets2425_base_discontinuity :
    calculateTax "2024-2025" 135000 = Except.ok 31288 ∧
    calculateTax "2024-2025" 135001 = Except.ok (31388 + 37/100) ∧
    (brackets2425.get ⟨3, by norm_num [brackets2425]⟩).base ≠
      (brackets2425.get ⟨2, by norm_num [brackets2425]⟩).base +
        ((brackets2425.get ⟨3, by norm_num [brackets2425]⟩).min -
          (brackets2425.get ⟨2, by norm_num [brackets2425]⟩).min) *
          (brackets2425.get ⟨2, by norm_num [brackets2425]⟩).rate ∧
    (brackets2425.get ⟨4, by norm_num [brackets2425]⟩).base ≠
      (brackets2425.get ⟨3, by norm_num [brackets2425]⟩).base +
        ((brackets2425.get ⟨4, by norm_num [brackets2425]⟩).min -
          (brackets2425.get ⟨3, by norm_num [brackets2425]⟩).min) *
          (brackets2425.get ⟨3, by norm_num [brackets2425]⟩).rate ∧
    (∀ k : Fin 4,
      (brackets2324.get ⟨(k : ℕ) + 1, by have := k.isLt; simp only [brackets2324, List.length]; omega⟩).base =
        (brackets2324.get ⟨(k : ℕ), by have := k.isLt; simp only [brackets2324, List.length]; omega⟩).base +
          ((brackets2324.get ⟨(k : ℕ) + 1, by have := k.isLt; simp only [brackets2324, List.length]; omega⟩).min -
            (brackets2324.get ⟨(k : ℕ), by have := k.isLt; simp only [brackets2324, List.length]; omega⟩).min) *
            (brackets2324.get ⟨(k : ℕ), by have := k.isLt; simp only [brackets2324, List.length]; omega⟩).rate) := by
  refine ⟨?_, ?_, ?_, ?_, ?_⟩
  · rw [calculateTax_2425_eq]
    norm_num [raw2425, round2, jsRound]
  · rw [calculateTax_2425_eq]
    norm_num [raw2425, round2, jsRound]
  · show (31388 : ℚ) ≠ 4288 + ((135000 : ℚ) - 45000) * (3/10)
    norm_num
  · show (51838 : ℚ) ≠ 31388 + ((190000 : ℚ) - 135000) * (37/100)
    norm_num
  · intro k
    fin_cases k
    · show (0 : ℚ) = 0 + ((18200 : ℚ) - 0) * 0
      norm_num
    · show (5092 : ℚ) = 0 + ((45000 : ℚ) - 18200) * (19/100)
      norm_num
    · show (29467 : ℚ) = 5092 + ((120000 : ℚ) - 45000) * (325/1000)
      norm_num
    · show (51667 : ℚ) = 29467 + ((180000 : ℚ) - 120000) * (37/100)
      norm_num

/-- C2: for a recognized year, `calculateTax` selects the last bracket
in the table whose lower bound is strictly below the income and returns
`base + (income - min) * rate` rounded to two decimals, half up on the
cent (`⌊x * 100 + 1/2⌋ / 100`). -/
theorem calculateTax_selects_last_bracket (year : String) (bs : List TaxBracket)
    (hy : TAX_BRACKETS year = some bs) (income : ℚ) (i : ℕ) (hi : i < bs.length)
    (hlt : (bs.get ⟨i, hi⟩).min < income)
    (hlast : ∀ j (hj : j < bs.length), i < j → ¬ (bs.get ⟨j, hj⟩).min < income) :
    calculateTax year income =
      Except.ok (((⌊((bs.get ⟨i, hi⟩).base +
        (income - (bs.get ⟨i, hi⟩).min) * (bs.get ⟨i, hi⟩).rate) * 100 + 1/2⌋ : ℤ) : ℚ) / 100) := by
  rw [calculateTax, hy]
  simp only [@findLast_eq_of_last TaxBracket (fun b => b.min < income) _ bs i hi hlt hlast,
    round2, jsRound]

/-- Witness for C2 at year 2023-2024, income 100,000 (third bracket):
5092 + 55000 * 0.325 = 22967. -/
theorem calculateTax_selects_last_bracket_witness :
    calculateTax "2023-2024" 100000 = Except.ok 22967 := by
  have h := calculateTax_selects_last_bracket "2023-2024" brackets2324 tb2324 100000 2
    (by norm_num [brackets2324]) (by norm_num [brackets2324]) ?_
  · rw [h]
    show Except.ok ((((⌊((5092 : ℚ) + ((100000 : ℚ) - 45000) * (325/1000)) * 100 + 1/2⌋ : ℤ) : ℚ)) / 100) = _
    norm_num
  · intro j hj hij
    have hj5 : j < 5 := by simpa [brackets2324] using hj
    interval_cases j
    · show ¬ (120000 : ℚ) < 100000
      norm_num
    · show ¬ (180000 : ℚ) < 100000
      norm_num

/-- C3: for each supported year, any income at or below the 18,200
tax-free threshold yields exactly zero tax. -/
theorem calculateTax_tax_free_threshold (year : String) (income : ℚ)
    (hy : year ∈ getAvailableYears) (h : income ≤ 18200) :
    calculateTax year income = Except.ok 0 := by
  rcases mem_getAvailableYears hy with rfl | rfl
  · rw [calculateTax_2324_eq]
    have hz : raw2324 income = 0 := by
      rw [raw2324]
      split_ifs <;> first | linarith | ring
    rw [hz, round2_zero]
  · rw [calculateTax_2425_eq]
    have hz : raw2425 income = 0 := by
      rw [raw2425]
      split_ifs <;> first | linarith | ring
    rw [hz, round2_zero]

/-- Witness for C3 at the threshold itself. -/
theorem calculateTax_tax_free_threshold_witness :
    calculateTax "2024-2025" 18200 = Except.ok 0 :=
  calculateTax_tax_free_threshold "2024-2025" 18200 (by decide) (by norm_num)

/-- C4: `calculateTax` fails (with the error naming the year) exactly
on unrecognized years and always succeeds on recognized ones, while the
two validators are total functions into `ValidationOutcome`: every
input produces either a success or a failure value, never an exception. -/
theorem calculateTax_error_iff_unknown_year (year : String) (income : ℚ) :
    (year ∈ getAvailableYears → ∃ t, calculateTax year income = Except.ok t) ∧
    (year ∉ getAvailableYears →
      calculateTax year income = Except.error ("Invalid tax year: " ++ year)) ∧
    (∀ input, (∃ v, validateYear input = ValidationOutcome.success v) ∨
      (∃ e, validateYear input = ValidationOutcome.failure e)) ∧
    (∀ input, (∃ v, validateIncome input = ValidationOutcome.success v) ∨
      (∃ e, validateIncome input = ValidationOutcome.failure e)) := by
  refine ⟨?_, ?_, ?_, ?_⟩
  · intro hy
    rcases mem_getAvailableYears hy with rfl | rfl
    · exact ⟨_, calculateTax_2324_eq income⟩
    · exact ⟨_, calculateTax_2425_eq income⟩
  · intro hy
    rw [calculateTax, TAX_BRACKETS_eq_none hy]
  · intro input
    cases h : validateYear input with
    | success v => exact Or.inl ⟨v, rfl⟩
    | failure e => exact Or.inr ⟨e, rfl⟩
  · intro input
    cases h : validateIncome input with
    | success v => exact Or.inl ⟨v, rfl⟩
    | failure e => exact Or.inr ⟨e, rfl⟩

/-- Witness for C4: a recognized year succeeds, an unknown one throws. -/
theorem calculateTax_error_iff_unknown_year_witness :
    (∃ t, calculateTax "2023-2024" 50000 = Except.ok t) ∧
    calculateTax "1999-2000" 1 = Except.error ("Invalid tax year: " ++ "1999-2000") :=
  ⟨(calculateTax_error_iff_unknown_year "2023-2024" 50000).1 (by decide),
   (calculateTax_error_iff_unknown_year "1999-2000" 1).2.1 (by decide)⟩

/-- C9: year 2023-2024 and income 50,000 give tax exactly 6,717
(= 5092 + 5000 * 0.325, the whole-dollar-base table), after-tax 43,283
and effective rate 6717 / 50000 * 100. -/
theorem tax_2023_2024_income_50000 :
    calculateTax "2023-2024" 50000 = Except.ok 6717 ∧
    (6717 : ℚ) = 5092 + (50000 - 45000) * (325/1000) ∧
    calculateResult "2023-2024" 50000 =
      Except.ok ⟨"2023-2024", 50000, 6717, 43283, 6717 / 50000 * 100⟩ := by
  have h : calculateTax "2023-2024" 50000 = Except.ok 6717 := by
    rw [calculateTax_2324_eq]
    norm_num [raw2324, round2, jsRound]
  refine ⟨h, by norm_num, ?_⟩
  simp only [calculateResult, h]
  norm_num

theorem validateIncome_eval (s : String) (d : DecimalLit) (v : ℚ)
    (hne : jsTrim s ≠ "") (hp : parseNumLit (trimChars s.data) = some d)
    (hv : litValue d = v) (h0 : ¬ v < 0) (hm : ¬ v > maxIncome) :
    validateIncome s = ValidationOutcome.success v := by
  have hj : jsNumber s = some v := by
    rw [jsNumber, hp, Option.map_some', hv]
  simp only [validateIncome, hj, if_neg hne, if_neg h0, if_neg hm]

/-- C5: `validateIncome` tries, in order: empty after trimming, not a
number, negative, above the cap, and otherwise succeeds with the parsed
value; zero, decimals, whitespace-surrounded numerals and the cap
itself are accepted. -/
theorem validateIncome_cases (s : String) :
    (jsTrim s = "" → validateIncome s = ValidationOutcome.failure "Income cannot be empty") ∧
    (jsTrim s ≠ "" → jsNumber s = none →
      validateIncome s = ValidationOutcome.failure "Please enter a valid numeric income") ∧
    (∀ v, jsTrim s ≠ "" → jsNumber s = some v → v < 0 →
      validateIncome s = ValidationOutcome.failure "Income cannot be negative") ∧
    (∀ v, jsTrim s ≠ "" → jsNumber s = some v → 0 ≤ v → maxIncome < v →
      validateIncome s = ValidationOutcome.failure "Income exceeds maximum allowed value") ∧
    (∀ v, jsTrim s ≠ "" → jsNumber s = some v → 0 ≤ v → v ≤ maxIncome →
      validateIncome s = ValidationOutcome.success v) ∧
    validateIncome "0" = ValidationOutcome.success 0 ∧
    validateIncome " 123.45 " = ValidationOutcome.success (12345/100) ∧
    validateIncome "999999999.99" = ValidationOutcome.success maxIncome := by
  refine ⟨?_, ?_, ?_, ?_, ?_, ?_, ?_, ?_⟩
  · intro h
    rw [validateIncome, if_pos h]
  · intro h hn
    simp only [validateIncome, hn, if_neg h]
  · intro v h hv hneg
    simp only [validateIncome, hv, if_neg h, if_pos hneg]
  · intro v h hv h0 hmax
    simp only [validateIncome, hv, if_neg h, if_neg (not_lt.mpr h0), if_pos hmax]
  · intro v h hv h0 hmax
    simp only [validateIncome, hv, if_neg h, if_neg (not_lt.mpr h0),
      if_neg (not_lt.mpr hmax)]
  · exact validateIncome_eval "0" ⟨0, 0, 0⟩ 0 (by decide) (by decide)
      (by norm_num [litValue]) (by norm_num) (by norm_num [maxIncome])
  · exact validateIncome_eval " 123.45 " ⟨12345, 2, 0⟩ (12345/100) (by decide) (by decide)
      (by norm_num [litValue]) (by norm_num) (by norm_num [maxIncome])
  · exact validateIncome_eval "999999999.99" ⟨99999999999, 2, 0⟩ maxIncome (by decide)
      (by decide) (by norm_num [litValue, maxIncome]) (by norm_num [maxIncome]) (by norm_num)

/-- Witness for C5: a negative input is rejected with the negative
message. -/
theorem validateIncome_cases_witness :
    validateIncome "-1000" = ValidationOutcome.failure "Income cannot be negative" := by
  have hj : jsNumber "-1000" = some (-1000) := by
    rw [jsNumber, show parseNumLit (trimChars ("-1000".data)) = some ⟨-1000, 0, 0⟩ from by decide,
      Option.map_some']
    norm_num [litValue]
  exact (validateIncome_cases "-1000").2.2.1 (-1000) (by decide) hj (by norm_num)

/-- C6: `validateYear` tries, in order: empty after trimming, the
four-digits hyphen four-digits shape (with the example in the message
being the first available year), membership in the available-years list
(the failure message naming the input and listing the years comma-joined
in table order), and accepts exactly the available years, returning the
input unchanged. -/
theorem validateYear_cases (s : String) :
    (jsTrim s = "" → validateYear s = ValidationOutcome.failure "Year cannot be empty") ∧
    (jsTrim s ≠ "" → isYearFormat s = false →
      validateYear s = ValidationOutcome.failure
        ("Year must be in format YYYY-YYYY (e.g., " ++ getAvailableYears.headD "" ++ ")")) ∧
    (jsTrim s ≠ "" → isYearFormat s = true → s ∉ getAvailableYears →
      validateYear s = ValidationOutcome.failure
        ("Year \"" ++ s ++ "\" not available. Choose from: " ++
          String.intercalate ", " getAvailableYears)) ∧
    (s ∈ getAvailableYears → validateYear s = ValidationOutcome.success s) := by
  refine ⟨?_, ?_, ?_, ?_⟩
  · intro h
    rw [validateYear, if_pos h]
  · intro h hf
    rw [validateYear, if_neg h, if_pos hf]
    decide
  · intro h hf hm
    rw [validateYear, if_neg h, if_neg (by simp [hf]), if_pos hm]
  · intro hm
    rcases mem_getAvailableYears hm with rfl | rfl <;> decide

/-- Witness for C6: a well-formed but unlisted year is rejected with
the listing message. -/
theorem validateYear_cases_witness :
    validateYear "2022-2023" = ValidationOutcome.failure
      "Year \"2022-2023\" not available. Choose from: 2023-2024, 2024-2025" :=
  (validateYear_cases "2022-2023").2.2.1 (by decide) (by decide) (by decide)

theorem calculateResult_50000 :
    calculateResult "2023-2024" 50000 = Except.ok resultAt50000 := by
  have h : calculateTax "2023-2024" 50000 = Except.ok 6717 := by
    rw [calculateTax_2324_eq]
    norm_num [raw2324, round2, jsRound]
  simp only [calculateResult, h, resultAt50000]
  norm_num

/-- C7: a successful `calculateResult` record satisfies
`afterTax + tax = income` exactly, carries the unrounded effective rate
`tax / income * 100` for positive income and 0 for zero income, and
echoes its inputs. -/
theorem calculateResult_algebra (year : String) (income : ℚ) (r : TaxResult)
    (h : calculateResult year income = Except.ok r) :
    r.afterTax + r.tax = income ∧
    (0 < income → r.effectiveRate = r.tax / income * 100) ∧
    (income = 0 → r.effectiveRate = 0) ∧
    r.year = year ∧ r.income = income := by
  rw [calculateResult] at h
  cases hc : calculateTax year income with
  | error e =>
    rw [hc] at h
    exact absurd h (by simp)
  | ok t =>
    rw [hc] at h
    injection h with h2
    subst h2
    refine ⟨by ring, ?_, ?_, rfl, rfl⟩
    · intro h0
      simp only [TaxResult.effectiveRate]
      rw [if_pos h0]
    · intro h0
      simp only [TaxResult.effectiveRate]
      rw [if_neg (by simp [h0])]

/-- Witness for C7 on the 50,000 scenario record. -/
theorem calculateResult_algebra_witness :
    resultAt50000.afterTax + resultAt50000.tax = 50000 ∧
    resultAt50000.effectiveRate = resultAt50000.tax / 50000 * 100 :=
  ⟨(calculateResult_algebra "2023-2024" 50000 resultAt50000 calculateResult_50000).1,
   (calculateResult_algebra "2023-2024" 50000 resultAt50000 calculateResult_50000).2.1
     (by norm_num)⟩

theorem promptLoop_spec {α : Type} (validate : String → ValidationOutcome α) :
    ∀ (inputs : List String) (v : α) (rest logs : List String),
      promptLoop validate inputs = some (v, rest, logs) →
      inputs.length = logs.length + 1 + rest.length ∧
      inputs.drop (logs.length + 1) = rest ∧
      validate (inputs.getD logs.length "") = ValidationOutcome.success v ∧
      ∀ j, j < logs.length →
        validate (inputs.getD j "") = ValidationOutcome.failure (logs.getD j "")
  | [], v, rest, logs, h => by simp [promptLoop] at h
  | i :: tl, v, rest, logs, h => by
    simp only [promptLoop] at h
    cases hv : validate i with
    | success w =>
      rw [hv] at h
      injection h with h2
      obtain ⟨rfl, rfl, rfl⟩ : w = v ∧ tl = rest ∧ ([] : List String) = logs := by
        simpa using h2
      refine ⟨by simp; omega, by simp, by simpa using hv, by simp⟩
    | failure e =>
      rw [hv] at h
      cases hrec : promptLoop validate tl with
      | none =>
        rw [hrec] at h
        simp at h
      | some out =>
        obtain ⟨v2, rem2, logs2⟩ := out
        rw [hrec] at h
        obtain ⟨ih1, ih2, ih3, ih4⟩ := promptLoop_spec validate tl v2 rem2 logs2 hrec
        injection h with h2
        obtain ⟨hv2, hrem, hlogs⟩ : v2 = v ∧ rem2 = rest ∧ e :: logs2 = logs := by
          simpa using h2
        subst hv2
        subst hrem
        subst hlogs
        refine ⟨?_, ?_, ?_, ?_⟩
        · simp only [List.length_cons] at ih1 ⊢
          omega
        · simp only [List.length_cons, List.drop_succ_cons]
          exact ih2
        · simp only [List.length_cons, List.getD_cons_succ]
          exact ih3
        · intro j hj
          cases j with
          | zero => simpa [List.getD_cons_zero] using hv
          | succ k =>
            simp only [List.getD_cons_succ]
            apply ih4
            simp only [List.length_cons] at hj
            omega

/-- C8: fed the prompt answers "invalid-year", "2023-2024", "abc",
"50000", the driver logs exactly the two validation-failure messages
and returns the result for year 2023-2024 and income 50,000; and in
general each prompt loop consumes answers until the first valid one,
logging exactly the validation error of every rejected answer in order
and returning the first validated value. -/
theorem run_scenario_logs_two_errors :
    run ["invalid-year", "2023-2024", "abc", "50000"] =
      some (resultAt50000,
        ["Year must be in format YYYY-YYYY (e.g., 2023-2024)",
         "Please enter a valid numeric income"]) ∧
    (∀ (α : Type) (validate : String → ValidationOutcome α) (inputs : List String)
      (v : α) (rest logs : List String),
      promptLoop validate inputs = some (v, rest, logs) →
      inputs.length = logs.length + 1 + rest.length ∧
      inputs.drop (logs.length + 1) = rest ∧
      validate (inputs.getD logs.length "") = ValidationOutcome.success v ∧
      ∀ j, j < logs.length →
        validate (inputs.getD j "") = ValidationOutcome.failure (logs.getD j "")) := by
  constructor
  · have hgy : getValidYear ["invalid-year", "2023-2024", "abc", "50000"] =
        some ("2023-2024", ["abc", "50000"],
          ["Year must be in format YYYY-YYYY (e.g., 2023-2024)"]) := by decide
    have hi1 : validateIncome "abc" =
        ValidationOutcome.failure "Please enter a valid numeric income" := by decide
    have hi2 : validateIncome "50000" = ValidationOutcome.success 50000 :=
      validateIncome_eval "50000" ⟨50000, 0, 0⟩ 50000 (by decide) (by decide)
        (by norm_num [litValue]) (by norm_num) (by norm_num [maxIncome])
    have hgi : getValidIncome ["abc", "50000"] =
        some (50000, [], ["Please enter a valid numeric income"]) := by
      simp only [getValidIncome, promptLoop, hi1, hi2]
    simp only [run, hgy, hgi, calculateResult_50000]
    rfl
  · exact fun α validate inputs v rest logs h =>
      promptLoop_spec validate inputs v rest logs h

/-- Witness for C8's general clause: a one-failure year loop validates
the second answer. -/
theorem run_scenario_logs_two_errors_witness :
    validateYear (["2022-2023", "2023-2024"].getD 1 "") =
      ValidationOutcome.success "2023-2024" :=
  (run_scenario_logs_two_errors.2 String validateYear ["2022-2023", "2023-2024"]
    "2023-2024" [] ["Year \"2022-2023\" not available. Choose from: 2023-2024, 2024-2025"]
    (by decide)).2.2.1

/-- C10: for each supported year, `calculateTax` is monotone
non-decreasing in the income. -/
theorem calculateTax_monotone (year : String) (a b ta tb : ℚ)
    (hy : year ∈ getAvailableYears) (hab : a ≤ b)
    (ha : calculateTax year a = Except.ok ta)
    (hb : calculateTax year b = Except.ok tb) : ta ≤ tb := by
  rcases mem_getAvailableYears hy with rfl | rfl
  · rw [calculateTax_2324_eq] at ha hb
    injection ha with ha2
    injection hb with hb2
    subst ha2
    subst hb2
    exact round2_mono (raw2324_mono hab)
  · rw [calculateTax_2425_eq] at ha hb
    injection ha with ha2
    injection hb with hb2
    subst ha2
    subst hb2
    exact round2_mono (raw2425_mono hab)

/-- Witness for C10: 30,000 versus 60,000 in 2023-2024. -/
theorem calculateTax_monotone_witness :
    calculateTax "2023-2024" 30000 = Except.ok 2242 ∧
    calculateTax "2023-2024" 60000 = Except.ok 9967 ∧ (2242 : ℚ) ≤ 9967 := by
  have h1 : calculateTax "2023-2024" 30000 = Except.ok 2242 := by
    rw [calculateTax_2324_eq]
    norm_num [raw2324, round2, jsRound]
  have h2 : calculateTax "2023-2024" 60000 = Except.ok 9967 := by
    rw [calculateTax_2324_eq]
    norm_num [raw2324, round2, jsRound]
  exact ⟨h1, h2, calculateTax_monotone "2023-2024" 30000 60000 2242 9967
    (by decide) (by norm_num) h1 h2⟩

end TerminalTax
